import Mathlib

/-
Shallow embedding of the storage/service core of the BetterGR
courses-microservice (Go).  The relational backend (`Database`, server/db.go,
first part) is modelled as explicit lists of table rows with SQL-statement
semantics; the in-memory backend (`MockDatabase`, server/db.go, second part)
as association lists mirroring its Go maps; the gRPC service layer
(server.go / `CoursesServer`) as a dispatcher over a request type.  Every
operation threads the store state explicitly and reports errors through
`Option DBError` / `Except DBError`, mirroring the Go `error` returns.
-/

/-- `Course` row / in-memory record (server/db.go).  The `created_at` /
`updated_at` timestamp columns are database-managed defaults and are not part
of any behavioural claim, so they are omitted. -/
structure Course where
  courseID : String
  courseName : String
  semester : String
  description : String
deriving Repr, DecidableEq

/-- `Announcement` row / in-memory record (server/db.go), timestamps omitted
as in `Course`. -/
structure Announcement where
  announcementID : String
  courseID : String
  title : String
  content : String
deriving Repr, DecidableEq

/-- The sentinel errors of server/db.go plus the two storage-level failures
that are not sentinels: `sqlNoRows` (a `Scan` with no result row, wrapped by
`fmt.Errorf`) and `uniqueViolation` (the PostgreSQL duplicate-key error on an
`INSERT` into a column tagged `unique,pk`). -/
inductive DBError where
  | courseNil
  | courseIDEmpty
  | courseNotFound
  | studentIDEmpty
  | staffIDEmpty
  | announcementEmpty
  | semesterEmpty
  | courseAlreadyExists
  | sqlNoRows
  | uniqueViolation
deriving Repr, DecidableEq

/-- `cpb.AddAnnouncementRequest`, flattened: the nested `Announcement`
message's getters return the empty string when the message is nil, so the
request is represented by its four string fields. -/
structure AddAnnouncementRequest where
  courseID : String
  announcementID : String
  title : String
  content : String
deriving Repr, DecidableEq

/-! ### Association-list maps

Go's `map[string]V` is modelled as an association list with first-match
lookup.  `insert` replaces the first binding of the key in place (or appends a
fresh one), `eraseKey` drops every binding of the key (Go `delete`), and
`mapVals` rewrites every value (Go `for k, v := range m { m[k] = f(v) }`). -/

abbrev AssocMap (V : Type) : Type := List (String × V)

namespace AssocMap

def find? {V : Type} (m : AssocMap V) (k : String) : Option V :=
  (List.find? (fun p => p.1 = k) m).map (fun p => p.2)

def insert {V : Type} (m : AssocMap V) (k : String) (v : V) : AssocMap V :=
  match m with
  | [] => [(k, v)]
  | p :: t => if p.1 = k then (k, v) :: t else p :: insert t k v

def eraseKey {V : Type} (m : AssocMap V) (k : String) : AssocMap V :=
  List.filter (fun p => ¬ p.1 = k) m

def mapVals {V : Type} (f : V → V) (m : AssocMap V) : AssocMap V :=
  List.map (fun p => (p.1, f p.2)) m

/-- Lookup of a list-valued key, defaulting to the empty list: this is
exactly Go's `m[k]` for a `map[string][]string`. -/
def lookupList {V : Type} (m : AssocMap (List V)) (k : String) : List V :=
  (find? m k).getD []

end AssocMap

/-! ### Relational backend (`Database`, server/db.go)

The PostgreSQL tables are lists of rows; each Go method is one Lean function
with the semantics of its SQL statements.  The only schema constraint is the
`unique,pk` tag on `courses.course_id`; the association and announcement
tables carry no uniqueness constraint, so their `INSERT`s always append.  A
method returns its updated table state together with the Go error value. -/

structure PG where
  courses : List Course
  courseStudent : List (String × String)
  courseStaff : List (String × String)
  announcements : List Announcement
deriving Repr, DecidableEq

namespace Database

/-- The `updateField` closure of `Database.UpdateCourse`: overwrite only when
the incoming value is non-empty. -/
def updateField (field newValue : String) : String :=
  if newValue = "" then field else newValue

/-- `Database.AddCourse`: nil/empty-id validation, then
`INSERT INTO courses`; the `unique,pk` constraint on `course_id` makes the
insert fail on a duplicate id, leaving the table unchanged. -/
def AddCourse (course : Option Course) (d : PG) : PG × Except DBError Course :=
  match course with
  | none => (d, Except.error DBError.courseNil)
  | some c =>
    if c.courseID = "" then (d, Except.error DBError.courseIDEmpty)
    else if d.courses.any (fun r => r.courseID = c.courseID) then
      (d, Except.error DBError.uniqueViolation)
    else
      ({ d with courses := d.courses ++ [c] }, Except.ok c)

/-- `Database.GetCourse`: `SELECT ... WHERE course_id = ?`; no row makes
`Scan` fail (`sql.ErrNoRows`, wrapped). -/
def GetCourse (courseID : String) (d : PG) : Except DBError Course :=
  if courseID = "" then Except.error DBError.courseIDEmpty
  else
    match d.courses.find? (fun r => r.courseID = courseID) with
    | none => Except.error DBError.sqlNoRows
    | some c => Except.ok c

/-- `Database.UpdateCourse`: fetch the existing row, overwrite the non-empty
incoming fields, then `UPDATE ... WHERE` the primary key. -/
def UpdateCourse (course : Option Course) (d : PG) : PG × Except DBError Course :=
  match course with
  | none => (d, Except.error DBError.courseNil)
  | some c =>
    if c.courseID = "" then (d, Except.error DBError.courseIDEmpty)
    else
      match GetCourse c.courseID d with
      | Except.error e => (d, Except.error e)
      | Except.ok existingCourse =>
        let updated : Course :=
          { existingCourse with
            courseName := updateField existingCourse.courseName c.courseName
            semester := updateField existingCourse.semester c.semester
            description := updateField existingCourse.description c.description }
        ({ d with
            courses := d.courses.map
              (fun r => if r.courseID = updated.courseID then updated else r) },
          Except.ok updated)

/-- `Database.DeleteCourse`: delete the course row (zero rows affected means
"course not found"), then delete its `course_student` and `course_staff`
rows.  The `announcements` table is not touched by this method. -/
def DeleteCourse (courseID : String) (d : PG) : PG × Option DBError :=
  if courseID = "" then (d, some DBError.courseIDEmpty)
  else
    let kept := d.courses.filter (fun r => ¬ r.courseID = courseID)
    let affected := d.courses.length - kept.length
    let d1 := { d with courses := kept }
    if affected = 0 then (d1, some DBError.courseNotFound)
    else
      ({ d1 with
          courseStudent := d1.courseStudent.filter (fun p => ¬ p.1 = courseID)
          courseStaff := d1.courseStaff.filter (fun p => ¬ p.1 = courseID) },
        none)

/-- `Database.AddStudentToCourse`: validation, then a plain `INSERT` into
`course_student` (the table has no uniqueness constraint). -/
def AddStudentToCourse (courseID studentID : String) (d : PG) :
    PG × Option DBError :=
  if courseID = "" then (d, some DBError.courseIDEmpty)
  else if studentID = "" then (d, some DBError.studentIDEmpty)
  else ({ d with courseStudent := d.courseStudent ++ [(courseID, studentID)] }, none)

/-- `Database.RemoveStudentFromCourse`: `DELETE ... WHERE course_id AND
student_id`; zero rows affected is reported as `ErrCourseNotFound`. -/
def RemoveStudentFromCourse (courseID studentID : String) (d : PG) :
    PG × Option DBError :=
  if courseID = "" then (d, some DBError.courseIDEmpty)
  else if studentID = "" then (d, some DBError.studentIDEmpty)
  else
    let kept := d.courseStudent.filter
      (fun p => ¬ (p.1 = courseID ∧ p.2 = studentID))
    let affected := d.courseStudent.length - kept.length
    let d1 := { d with courseStudent := kept }
    if affected = 0 then (d1, some DBError.courseNotFound) else (d1, none)

/-- `Database.AddStaffToCourse`, symmetric to the student variant. -/
def AddStaffToCourse (courseID staffID : String) (d : PG) :
    PG × Option DBError :=
  if courseID = "" then (d, some DBError.courseIDEmpty)
  else if staffID = "" then (d, some DBError.staffIDEmpty)
  else ({ d with courseStaff := d.courseStaff ++ [(courseID, staffID)] }, none)

/-- `Database.RemoveStaffFromCourse`, symmetric to the student variant. -/
def RemoveStaffFromCourse (courseID staffID : String) (d : PG) :
    PG × Option DBError :=
  if courseID = "" then (d, some DBError.courseIDEmpty)
  else if staffID = "" then (d, some DBError.staffIDEmpty)
  else
    let kept := d.courseStaff.filter
      (fun p => ¬ (p.1 = courseID ∧ p.2 = staffID))
    let affected := d.courseStaff.length - kept.length
    let d1 := { d with courseStaff := kept }
    if affected = 0 then (d1, some DBError.courseNotFound) else (d1, none)

/-- `Database.GetCourseStudents`: `SELECT student_id WHERE course_id = ?`.
No existence check on the course; zero matching rows scan into an empty
slice with no error. -/
def GetCourseStudents (courseID : String) (d : PG) :
    Except DBError (List String) :=
  if courseID = "" then Except.error DBError.courseIDEmpty
  else
    Except.ok ((d.courseStudent.filter (fun p => p.1 = courseID)).map
      (fun p => p.2))

/-- `Database.GetCourseStaff`, symmetric to the student variant. -/
def GetCourseStaff (courseID : String) (d : PG) :
    Except DBError (List String) :=
  if courseID = "" then Except.error DBError.courseIDEmpty
  else
    Except.ok ((d.courseStaff.filter (fun p => p.1 = courseID)).map
      (fun p => p.2))

/-- `Database.GetStudentCourses`: `SELECT course_id WHERE student_id = ?`. -/
def GetStudentCourses (studentID : String) (d : PG) :
    Except DBError (List String) :=
  if studentID = "" then Except.error DBError.studentIDEmpty
  else
    Except.ok ((d.courseStudent.filter (fun p => p.2 = studentID)).map
      (fun p => p.1))

/-- `Database.GetStaffCourses`: `SELECT course_id WHERE staff_id = ?`. -/
def GetStaffCourses (staffID : String) (d : PG) :
    Except DBError (List String) :=
  if staffID = "" then Except.error DBError.staffIDEmpty
  else
    Except.ok ((d.courseStaff.filter (fun p => p.2 = staffID)).map
      (fun p => p.1))

/-- `Database.GetCoursesBySemester`. -/
def GetCoursesBySemester (semester : String) (d : PG) :
    Except DBError (List Course) :=
  if semester = "" then Except.error DBError.semesterEmpty
  else Except.ok (d.courses.filter (fun r => r.semester = semester))

/-- `Database.AddAnnouncement`: an empty course id or an empty announcement
content both return `ErrCourseIDEmpty`; the announcement id is not validated.
Then a plain `INSERT` into `announcements`. -/
def AddAnnouncement (req : AddAnnouncementRequest) (d : PG) :
    PG × Option DBError :=
  if req.courseID = "" ∨ req.content = "" then (d, some DBError.courseIDEmpty)
  else
    ({ d with
        announcements := d.announcements ++
          [{ announcementID := req.announcementID
             courseID := req.courseID
             title := req.title
             content := req.content }] },
      none)

/-- `Database.GetAnnouncements`: `SELECT ... WHERE course_id = ?`; no course
existence check, zero rows give an empty slice and no error. -/
def GetAnnouncements (courseID : String) (d : PG) :
    Except DBError (List Announcement) :=
  if courseID = "" then Except.error DBError.courseIDEmpty
  else Except.ok (d.announcements.filter (fun a => a.courseID = courseID))

/-- `Database.RemoveAnnouncement`: `DELETE ... WHERE course_id AND
announcement_id`; zero rows affected is reported as `ErrCourseNotFound`. -/
def RemoveAnnouncement (courseID announcementID : String) (d : PG) :
    PG × Option DBError :=
  if courseID = "" then (d, some DBError.courseIDEmpty)
  else if announcementID = "" then (d, some DBError.announcementEmpty)
  else
    let kept := d.announcements.filter
      (fun a => ¬ (a.courseID = courseID ∧ a.announcementID = announcementID))
    let affected := d.announcements.length - kept.length
    let d1 := { d with announcements := kept }
    if affected = 0 then (d1, some DBError.courseNotFound) else (d1, none)

end Database

/-! ### In-memory backend (`MockDatabase`, server/db.go)

The six Go maps become association lists.  The single reader/writer mutex
serialises every operation, so each method is one atomic state transition.
Where the Go code writes a rebuilt (value-equal) slice back into a map before
returning an error, the model performs the same write. -/

structure MockDatabase where
  courses : AssocMap Course
  courseStudents : AssocMap (List String)
  courseStaff : AssocMap (List String)
  studentCourses : AssocMap (List String)
  staffCourses : AssocMap (List String)
  announcements : AssocMap (List Announcement)
deriving Repr, DecidableEq

/-- `NewMockDatabase`: all maps empty. -/
def NewMockDatabase : MockDatabase :=
  { courses := []
    courseStudents := []
    courseStaff := []
    studentCourses := []
    staffCourses := []
    announcements := [] }

namespace MockDatabase

/-- `MockDatabase.AddCourse`: validation, duplicate check, then insert. -/
def AddCourse (course : Option Course) (m : MockDatabase) :
    MockDatabase × Except DBError Course :=
  match course with
  | none => (m, Except.error DBError.courseNil)
  | some c =>
    if c.courseID = "" then (m, Except.error DBError.courseIDEmpty)
    else if (AssocMap.find? m.courses c.courseID).isSome then
      (m, Except.error DBError.courseAlreadyExists)
    else
      ({ m with courses := AssocMap.insert m.courses c.courseID c }, Except.ok c)

/-- `MockDatabase.GetCourse` (read-only). -/
def GetCourse (courseID : String) (m : MockDatabase) : Except DBError Course :=
  if courseID = "" then Except.error DBError.courseIDEmpty
  else
    match AssocMap.find? m.courses courseID with
    | none => Except.error DBError.courseNotFound
    | some c => Except.ok c

/-- `MockDatabase.UpdateCourse`: fetch, overwrite non-empty fields, store. -/
def UpdateCourse (course : Option Course) (m : MockDatabase) :
    MockDatabase × Except DBError Course :=
  match course with
  | none => (m, Except.error DBError.courseNil)
  | some c =>
    if c.courseID = "" then (m, Except.error DBError.courseIDEmpty)
    else
      match AssocMap.find? m.courses c.courseID with
      | none => (m, Except.error DBError.courseNotFound)
      | some existingCourse =>
        let updated : Course :=
          { existingCourse with
            courseName :=
              if c.courseName = "" then existingCourse.courseName else c.courseName
            semester :=
              if c.semester = "" then existingCourse.semester else c.semester
            description :=
              if c.description = "" then existingCourse.description else c.description }
        ({ m with courses := AssocMap.insert m.courses c.courseID updated },
          Except.ok updated)

/-- `MockDatabase.DeleteCourse`: delete the course and its four per-course
entries, then strip the course id from every student's and staff member's
course list. -/
def DeleteCourse (courseID : String) (m : MockDatabase) :
    MockDatabase × Option DBError :=
  if courseID = "" then (m, some DBError.courseIDEmpty)
  else if (AssocMap.find? m.courses courseID).isNone then
    (m, some DBError.courseNotFound)
  else
    ({ courses := AssocMap.eraseKey m.courses courseID
       courseStudents := AssocMap.eraseKey m.courseStudents courseID
       courseStaff := AssocMap.eraseKey m.courseStaff courseID
       studentCourses := AssocMap.mapVals
         (fun courses => courses.filter (fun cID => ¬ cID = courseID))
         m.studentCourses
       staffCourses := AssocMap.mapVals
         (fun courses => courses.filter (fun cID => ¬ cID = courseID))
         m.staffCourses
       announcements := AssocMap.eraseKey m.announcements courseID },
      none)

/-- `MockDatabase.addEntityToCourse`: the shared helper behind the student
and staff add operations.  Takes the course map for the existence check and
the two adjacency maps it mutates; returns the updated maps and the error. -/
def addEntityToCourse (courses : AssocMap Course) (courseID entityID : String)
    (entityMap courseMap : AssocMap (List String)) (emptyErr : DBError) :
    (AssocMap (List String) × AssocMap (List String)) × Option DBError :=
  if courseID = "" then ((entityMap, courseMap), some DBError.courseIDEmpty)
  else if entityID = "" then ((entityMap, courseMap), some emptyErr)
  else if (AssocMap.find? courses courseID).isNone then
    ((entityMap, courseMap), some DBError.courseNotFound)
  else
    let entityMap :=
      if (AssocMap.find? entityMap courseID).isNone then
        AssocMap.insert entityMap courseID []
      else entityMap
    if entityID ∈ AssocMap.lookupList entityMap courseID then
      ((entityMap, courseMap), none)
    else
      let entityMap := AssocMap.insert entityMap courseID
        (AssocMap.lookupList entityMap courseID ++ [entityID])
      let courseMap :=
        if (AssocMap.find? courseMap entityID).isNone then
          AssocMap.insert courseMap entityID []
        else courseMap
      if courseID ∈ AssocMap.lookupList courseMap entityID then
        ((entityMap, courseMap), none)
      else
        ((entityMap,
          AssocMap.insert courseMap entityID
            (AssocMap.lookupList courseMap entityID ++ [courseID])),
          none)

/-- `MockDatabase.validateRemoveEntityParams`. -/
def validateRemoveEntityParams (courses : AssocMap Course)
    (courseID entityID : String) (emptyErr : DBError) : Option DBError :=
  if courseID = "" then some DBError.courseIDEmpty
  else if entityID = "" then some emptyErr
  else if (AssocMap.find? courses courseID).isNone then
    some DBError.courseNotFound
  else none

/-- `MockDatabase.removeEntityFromMap`: filter the entity out of the course's
list (writing the rebuilt list back) and report whether it was found. -/
def removeEntityFromMap (courseID entityID : String)
    (entityMap : AssocMap (List String)) : Bool × AssocMap (List String) :=
  match AssocMap.find? entityMap courseID with
  | none => (false, entityMap)
  | some entities =>
      (entities.contains entityID,
        AssocMap.insert entityMap courseID
          (entities.filter (fun eID => ¬ eID = entityID)))

/-- `MockDatabase.removeCourseFromEntityMap`. -/
def removeCourseFromEntityMap (courseID entityID : String)
    (courseMap : AssocMap (List String)) : AssocMap (List String) :=
  match AssocMap.find? courseMap entityID with
  | none => courseMap
  | some courses =>
      AssocMap.insert courseMap entityID
        (courses.filter (fun cID => ¬ cID = courseID))

/-- `MockDatabase.removeEntityFromCourse`: validation, then removal from the
course's entity list (keeping the write even when the entity was absent, as
the Go code does), then removal from the entity's course list. -/
def removeEntityFromCourse (courses : AssocMap Course)
    (courseID entityID : String)
    (entityMap courseMap : AssocMap (List String)) (emptyErr : DBError) :
    (AssocMap (List String) × AssocMap (List String)) × Option DBError :=
  match validateRemoveEntityParams courses courseID entityID emptyErr with
  | some e => ((entityMap, courseMap), some e)
  | none =>
    let r := removeEntityFromMap courseID entityID entityMap
    if ¬ r.1 then ((r.2, courseMap), some DBError.courseNotFound)
    else ((r.2, removeCourseFromEntityMap courseID entityID courseMap), none)

/-- `MockDatabase.AddStudentToCourse`. -/
def AddStudentToCourse (courseID studentID : String) (m : MockDatabase) :
    MockDatabase × Option DBError :=
  let r := addEntityToCourse m.courses courseID studentID
    m.courseStudents m.studentCourses DBError.studentIDEmpty
  ({ m with courseStudents := r.1.1, studentCourses := r.1.2 }, r.2)

/-- `MockDatabase.RemoveStudentFromCourse`. -/
def RemoveStudentFromCourse (courseID studentID : String) (m : MockDatabase) :
    MockDatabase × Option DBError :=
  let r := removeEntityFromCourse m.courses courseID studentID
    m.courseStudents m.studentCourses DBError.studentIDEmpty
  ({ m with courseStudents := r.1.1, studentCourses := r.1.2 }, r.2)

/-- `MockDatabase.AddStaffToCourse`. -/
def AddStaffToCourse (courseID staffID : String) (m : MockDatabase) :
    MockDatabase × Option DBError :=
  let r := addEntityToCourse m.courses courseID staffID
    m.courseStaff m.staffCourses DBError.staffIDEmpty
  ({ m with courseStaff := r.1.1, staffCourses := r.1.2 }, r.2)

/-- `MockDatabase.RemoveStaffFromCourse`. -/
def RemoveStaffFromCourse (courseID staffID : String) (m : MockDatabase) :
    MockDatabase × Option DBError :=
  let r := removeEntityFromCourse m.courses courseID staffID
    m.courseStaff m.staffCourses DBError.staffIDEmpty
  ({ m with courseStaff := r.1.1, staffCourses := r.1.2 }, r.2)

/-- `MockDatabase.GetCourseStudents` (read-only; the Go copy of the returned
slice is value-equal to the stored one). -/
def GetCourseStudents (courseID : String) (m : MockDatabase) :
    Except DBError (List String) :=
  if courseID = "" then Except.error DBError.courseIDEmpty
  else if (AssocMap.find? m.courses courseID).isNone then
    Except.error DBError.courseNotFound
  else
    match AssocMap.find? m.courseStudents courseID with
    | none => Except.ok []
    | some students => Except.ok students

/-- `MockDatabase.GetCourseStaff` (read-only). -/
def GetCourseStaff (courseID : String) (m : MockDatabase) :
    Except DBError (List String) :=
  if courseID = "" then Except.error DBError.courseIDEmpty
  else if (AssocMap.find? m.courses courseID).isNone then
    Except.error DBError.courseNotFound
  else
    match AssocMap.find? m.courseStaff courseID with
    | none => Except.ok []
    | some staff => Except.ok staff

/-- `MockDatabase.GetStudentCourses` (read-only; no course existence check). -/
def GetStudentCourses (studentID : String) (m : MockDatabase) :
    Except DBError (List String) :=
  if studentID = "" then Except.error DBError.studentIDEmpty
  else
    match AssocMap.find? m.studentCourses studentID with
    | none => Except.ok []
    | some courses => Except.ok courses

/-- `MockDatabase.GetStaffCourses` (read-only). -/
def GetStaffCourses (staffID : String) (m : MockDatabase) :
    Except DBError (List String) :=
  if staffID = "" then Except.error DBError.staffIDEmpty
  else
    match AssocMap.find? m.staffCourses staffID with
    | none => Except.ok []
    | some courses => Except.ok courses

/-- `MockDatabase.AddAnnouncement`: as in the relational backend, an empty
course id or an empty content both return `ErrCourseIDEmpty`; the
announcement id is not validated; then the announcement is appended to the
course's list. -/
def AddAnnouncement (req : AddAnnouncementRequest) (m : MockDatabase) :
    MockDatabase × Option DBError :=
  if req.courseID = "" ∨ req.content = "" then (m, some DBError.courseIDEmpty)
  else if (AssocMap.find? m.courses req.courseID).isNone then
    (m, some DBError.courseNotFound)
  else
    let announcement : Announcement :=
      { announcementID := req.announcementID
        courseID := req.courseID
        title := req.title
        content := req.content }
    ({ m with
        announcements := AssocMap.insert m.announcements req.courseID
          (AssocMap.lookupList m.announcements req.courseID ++ [announcement]) },
      none)

/-- `MockDatabase.GetAnnouncements` (read-only). -/
def GetAnnouncements (courseID : String) (m : MockDatabase) :
    Except DBError (List Announcement) :=
  if courseID = "" then Except.error DBError.courseIDEmpty
  else if (AssocMap.find? m.courses courseID).isNone then
    Except.error DBError.courseNotFound
  else
    match AssocMap.find? m.announcements courseID with
    | none => Except.ok []
    | some announcements => Except.ok announcements

/-- `MockDatabase.RemoveAnnouncement`: validation, course existence check,
then the course's announcement list is rebuilt without the target id (the
write is kept even when nothing was removed, as in the Go code). -/
def RemoveAnnouncement (courseID announcementID : String) (m : MockDatabase) :
    MockDatabase × Option DBError :=
  if courseID = "" then (m, some DBError.courseIDEmpty)
  else if announcementID = "" then (m, some DBError.announcementEmpty)
  else if (AssocMap.find? m.courses courseID).isNone then
    (m, some DBError.courseNotFound)
  else
    match AssocMap.find? m.announcements courseID with
    | none => (m, some DBError.courseNotFound)
    | some announcements =>
      let found := announcements.any (fun a => a.announcementID = announcementID)
      let m1 := { m with
        announcements := AssocMap.insert m.announcements courseID
          (announcements.filter (fun a => ¬ a.announcementID = announcementID)) }
      if found then (m1, none) else (m1, some DBError.courseNotFound)

end MockDatabase

/-! ### Service layer (`CoursesServer`, server.go)

Each gRPC handler first runs `VerifyToken` (represented by the boolean
`tokenOK`: with an injected `Claims` it always succeeds, otherwise the
external verifier decides), then invokes the store and wraps any store error
into the single gRPC status code hard-wired in that handler.  The store is
the `DBInterface`; the handlers are modelled over the in-memory
implementation, which the repository's own service tests exercise. -/

/-- The gRPC status codes the handlers use. -/
inductive Code where
  | unauthenticated
  | notFound
  | internal
deriving Repr, DecidableEq

/-- One request per service method, carrying the fields each handler reads. -/
inductive SReq where
  | getCourse (courseID : String)
  | createCourse (course : Option Course)
  | updateCourse (course : Option Course)
  | deleteCourse (courseID : String)
  | addStudentToCourse (courseID studentID : String)
  | removeStudentFromCourse (courseID studentID : String)
  | addStaffToCourse (courseID staffID : String)
  | removeStaffFromCourse (courseID staffID : String)
  | getCourseStudents (courseID : String)
  | getCourseStaff (courseID : String)
  | getStudentCourses (studentID : String)
  | getStaffCourses (staffID : String)
  | addAnnouncementToCourse (req : AddAnnouncementRequest)
  | getCourseAnnouncements (courseID : String)
  | removeAnnouncementFromCourse (courseID announcementID : String)
deriving Repr, DecidableEq

/-- Service responses: a course message, an empty response, a list of ids, or
a list of announcement messages (id, title, content). -/
inductive SResp where
  | course (c : Course)
  | empty
  | ids (l : List String)
  | announcementList (l : List (String × String × String))
deriving Repr, DecidableEq

namespace CoursesServer

/-- The gRPC code each handler wraps a store error into, read off the
`status.Errorf(codes.…)` literal in that handler's body. -/
def storeFailureCode : SReq → Code
  | SReq.getCourse _ => Code.notFound
  | SReq.createCourse _ => Code.internal
  | SReq.updateCourse _ => Code.internal
  | SReq.deleteCourse _ => Code.internal
  | SReq.addStudentToCourse _ _ => Code.internal
  | SReq.removeStudentFromCourse _ _ => Code.internal
  | SReq.addStaffToCourse _ _ => Code.internal
  | SReq.removeStaffFromCourse _ _ => Code.internal
  | SReq.getCourseStudents _ => Code.notFound
  | SReq.getCourseStaff _ => Code.notFound
  | SReq.getStudentCourses _ => Code.notFound
  | SReq.getStaffCourses _ => Code.notFound
  | SReq.addAnnouncementToCourse _ => Code.internal
  | SReq.getCourseAnnouncements _ => Code.notFound
  | SReq.removeAnnouncementFromCourse _ _ => Code.internal

/-- The service dispatcher: token check first, then the store call, then the
handler's fixed error wrapping.  `CreateCourse` rebuilds the course message
from its getters (nil becomes all-empty fields) and echoes the request
course on success; `UpdateCourse` forwards the message as-is and returns the
updated record. -/
def serve (tokenOK : Bool) (req : SReq) (db : MockDatabase) :
    Except Code SResp × MockDatabase :=
  if ¬ tokenOK then (Except.error Code.unauthenticated, db)
  else
    match req with
    | SReq.getCourse cid =>
        match MockDatabase.GetCourse cid db with
        | Except.error _ => (Except.error Code.notFound, db)
        | Except.ok c => (Except.ok (SResp.course c), db)
    | SReq.createCourse course =>
        let msg := course.getD { courseID := "", courseName := "", semester := "", description := "" }
        let r := MockDatabase.AddCourse (some msg) db
        match r.2 with
        | Except.error _ => (Except.error Code.internal, r.1)
        | Except.ok _ => (Except.ok (SResp.course msg), r.1)
    | SReq.updateCourse course =>
        let r := MockDatabase.UpdateCourse course db
        match r.2 with
        | Except.error _ => (Except.error Code.internal, r.1)
        | Except.ok c => (Except.ok (SResp.course c), r.1)
    | SReq.deleteCourse cid =>
        let r := MockDatabase.DeleteCourse cid db
        match r.2 with
        | some _ => (Except.error Code.internal, r.1)
        | none => (Except.ok SResp.empty, r.1)
    | SReq.addStudentToCourse cid sid =>
        let r := MockDatabase.AddStudentToCourse cid sid db
        match r.2 with
        | some _ => (Except.error Code.internal, r.1)
        | none => (Except.ok SResp.empty, r.1)
    | SReq.removeStudentFromCourse cid sid =>
        let r := MockDatabase.RemoveStudentFromCourse cid sid db
        match r.2 with
        | some _ => (Except.error Code.internal, r.1)
        | none => (Except.ok SResp.empty, r.1)
    | SReq.addStaffToCourse cid sid =>
        let r := MockDatabase.AddStaffToCourse cid sid db
        match r.2 with
        | some _ => (Except.error Code.internal, r.1)
        | none => (Except.ok SResp.empty, r.1)
    | SReq.removeStaffFromCourse cid sid =>
        let r := MockDatabase.RemoveStaffFromCourse cid sid db
        match r.2 with
        | some _ => (Except.error Code.internal, r.1)
        | none => (Except.ok SResp.empty, r.1)
    | SReq.getCourseStudents cid =>
        match MockDatabase.GetCourseStudents cid db with
        | Except.error _ => (Except.error Code.notFound, db)
        | Except.ok l => (Except.ok (SResp.ids l), db)
    | SReq.getCourseStaff cid =>
        match MockDatabase.GetCourseStaff cid db with
        | Except.error _ => (Except.error Code.notFound, db)
        | Except.ok l => (Except.ok (SResp.ids l), db)
    | SReq.getStudentCourses sid =>
        match MockDatabase.GetStudentCourses sid db with
        | Except.error _ => (Except.error Code.notFound, db)
        | Except.ok l => (Except.ok (SResp.ids l), db)
    | SReq.getStaffCourses sid =>
        match MockDatabase.GetStaffCourses sid db with
        | Except.error _ => (Except.error Code.notFound, db)
        | Except.ok l => (Except.ok (SResp.ids l), db)
    | SReq.addAnnouncementToCourse areq =>
        let r := MockDatabase.AddAnnouncement areq db
        match r.2 with
        | some _ => (Except.error Code.internal, r.1)
        | none => (Except.ok SResp.empty, r.1)
    | SReq.getCourseAnnouncements cid =>
        match MockDatabase.GetAnnouncements cid db with
        | Except.error _ => (Except.error Code.notFound, db)
        | Except.ok l =>
            (Except.ok (SResp.announcementList
              (l.map (fun a => (a.announcementID, a.title, a.content)))), db)
    | SReq.removeAnnouncementFromCourse cid aid =>
        let r := MockDatabase.RemoveAnnouncement cid aid db
        match r.2 with
        | some _ => (Except.error Code.internal, r.1)
        | none => (Except.ok SResp.empty, r.1)

end CoursesServer

/-! ### Reachable in-memory states and the adjacency invariant -/

/-- The state-mutating operations of the in-memory store; the read-only
getters take the state unchanged and need no entry here. -/
inductive MockOp where
  | addCourse (course : Option Course)
  | updateCourse (course : Option Course)
  | deleteCourse (courseID : String)
  | addStudent (courseID studentID : String)
  | removeStudent (courseID studentID : String)
  | addStaff (courseID staffID : String)
  | removeStaff (courseID staffID : String)
  | addAnnouncement (req : AddAnnouncementRequest)
  | removeAnnouncement (courseID announcementID : String)
deriving Repr, DecidableEq

/-- The state after running one in-memory operation (the Go receiver after
the call, whether or not the call reported an error). -/
def MockOp.apply : MockOp → MockDatabase → MockDatabase
  | MockOp.addCourse c, m => (MockDatabase.AddCourse c m).1
  | MockOp.updateCourse c, m => (MockDatabase.UpdateCourse c m).1
  | MockOp.deleteCourse cid, m => (MockDatabase.DeleteCourse cid m).1
  | MockOp.addStudent cid sid, m => (MockDatabase.AddStudentToCourse cid sid m).1
  | MockOp.removeStudent cid sid, m => (MockDatabase.RemoveStudentFromCourse cid sid m).1
  | MockOp.addStaff cid sid, m => (MockDatabase.AddStaffToCourse cid sid m).1
  | MockOp.removeStaff cid sid, m => (MockDatabase.RemoveStaffFromCourse cid sid m).1
  | MockOp.addAnnouncement req, m => (MockDatabase.AddAnnouncement req m).1
  | MockOp.removeAnnouncement cid aid, m => (MockDatabase.RemoveAnnouncement cid aid m).1

/-- A state is reachable when some sequence of operations produces it from a
fresh `NewMockDatabase`. -/
def MockReachable (m : MockDatabase) : Prop :=
  ∃ ops : List MockOp,
    m = List.foldl (fun s o => MockOp.apply o s) NewMockDatabase ops

/-- Mutual inverse adjacency: an entity is listed under a course exactly when
the course is listed under the entity. -/
def InvPair (entityMap courseMap : AssocMap (List String)) : Prop :=
  ∀ c e : String,
    e ∈ AssocMap.lookupList entityMap c ↔ c ∈ AssocMap.lookupList courseMap e

/-- The C10 invariant: both the student and the staff adjacency-map pairs of
the in-memory store are mutual inverses. -/
def MockInv (m : MockDatabase) : Prop :=
  InvPair m.courseStudents m.studentCourses ∧
  InvPair m.courseStaff m.staffCourses

/-! ### Association-map lemmas -/

namespace AssocMap

theorem find?_insert_self {V : Type} (m : AssocMap V) (k : String) (v : V) :
    find? (insert m k v) k = some v := by
  induction m with
  | nil => simp [insert, find?, List.find?]
  | cons p t ih =>
      by_cases h : p.1 = k
      · simp [insert, h, find?, List.find?]
      · simpa [insert, h, find?, List.find?] using ih

theorem find?_insert_ne {V : Type} (m : AssocMap V) (k k' : String) (v : V)
    (h : k' ≠ k) : find? (insert m k v) k' = find? m k' := by
  induction m with
  | nil => simp [insert, find?, List.find?, Ne.symm h]
  | cons p t ih =>
      by_cases hp : p.1 = k
      · subst hp
        simp [insert, find?, List.find?, Ne.symm h, h]
      · by_cases hp' : p.1 = k'
        · simp [insert, hp, find?, List.find?, hp', h]
        · simpa [insert, hp, find?, List.find?, hp'] using ih

theorem find?_eraseKey_self {V : Type} (m : AssocMap V) (k : String) :
    find? (eraseKey m k) k = none := by
  induction m with
  | nil => simp [eraseKey, find?]
  | cons p t ih =>
      by_cases h : p.1 = k
      · simpa [eraseKey, h] using ih
      · simp [eraseKey, h, find?, List.find?, ih]

theorem find?_eraseKey_ne {V : Type} (m : AssocMap V) (k k' : String)
    (h : k' ≠ k) : find? (eraseKey m k) k' = find? m k' := by
  induction m with
  | nil => simp [eraseKey, find?]
  | cons p t ih =>
      by_cases hp : p.1 = k
      · simpa [eraseKey, hp, find?, List.find?, Ne.symm h] using ih
      · by_cases hp' : p.1 = k'
        · simp [eraseKey, hp, find?, List.find?, hp', h]
        · simpa [eraseKey, hp, find?, List.find?, hp'] using ih

theorem find?_mapVals {V : Type} (f : V → V) (m : AssocMap V) (k : String) :
    find? (mapVals f m) k = (find? m k).map f := by
  induction m with
  | nil => simp [mapVals, find?]
  | cons p t ih =>
      by_cases hp : p.1 = k
      · simp [mapVals, find?, List.find?, hp]
      · simpa [mapVals, find?, List.find?, hp] using ih

theorem insert_self_of_find? {V : Type} (m : AssocMap V) (k : String) (v : V)
    (h : find? m k = some v) : insert m k v = m := by
  induction m with
  | nil => simp [find?] at h
  | cons p t ih =>
      by_cases hp : p.1 = k
      · have hv : p.2 = v := by
          simp [find?, List.find?, hp] at h
          exact h
        have hpk : p = (k, v) := by
          cases p
          simp_all
        simp [insert, hp, hpk]
      · have ht : find? t k = some v := by
          simpa [find?, List.find?, hp] using h
        simp [insert, hp, ih ht]

theorem lookupList_insert_self {V : Type} (m : AssocMap (List V)) (k : String)
    (v : List V) : lookupList (insert m k v) k = v := by
  simp [lookupList, find?_insert_self]

theorem lookupList_insert_ne {V : Type} (m : AssocMap (List V)) (k k' : String)
    (v : List V) (h : k' ≠ k) :
    lookupList (insert m k v) k' = lookupList m k' := by
  simp [lookupList, find?_insert_ne m k k' v h]

theorem lookupList_eraseKey_self {V : Type} (m : AssocMap (List V)) (k : String) :
    lookupList (eraseKey m k) k = [] := by
  simp [lookupList, find?_eraseKey_self]

theorem lookupList_eraseKey_ne {V : Type} (m : AssocMap (List V)) (k k' : String)
    (h : k' ≠ k) : lookupList (eraseKey m k) k' = lookupList m k' := by
  simp [lookupList, find?_eraseKey_ne m k k' h]

theorem lookupList_mapVals {V : Type} (f : List V → List V) (m : AssocMap (List V))
    (k : String) (hf : f [] = []) :
    lookupList (mapVals f m) k = f (lookupList m k) := by
  rw [lookupList, find?_mapVals]
  cases h : find? m k with
  | none => simp [lookupList, h, hf]
  | some l => simp [lookupList, h]

end AssocMap

/-! ### Claim theorems -/

/-- C1 (code bug): `Database.DeleteCourse` (relational backend) deletes the
course row and its student and staff association rows, but never touches the
`announcements` table: after a successful delete of course `"C1"`, the
announcement referencing `"C1"` is still stored.  The in-memory backend run
on the corresponding state removes the announcements as the spec demands,
so the relational implementation omits the announcement step of the cascade. -/
theorem DeleteCourse_keeps_announcements_in_relational_store :
    Database.DeleteCourse "C1"
      { courses := [{ courseID := "C1", courseName := "Algorithms",
                      semester := "Fall2025", description := "" }]
        courseStudent := [("C1", "S1")]
        courseStaff := [("C1", "T1")]
        announcements := [{ announcementID := "A1", courseID := "C1",
                            title := "Midterm", content := "soon" }] } =
      ({ courses := [], courseStudent := [], courseStaff := []
         announcements := [{ announcementID := "A1", courseID := "C1",
                             title := "Midterm", content := "soon" }] },
        none) ∧
    MockDatabase.DeleteCourse "C1"
      { courses := [("C1", { courseID := "C1", courseName := "Algorithms",
                             semester := "Fall2025", description := "" })]
        courseStudents := [("C1", ["S1"])]
        courseStaff := [("C1", ["T1"])]
        studentCourses := [("S1", ["C1"])]
        staffCourses := [("T1", ["C1"])]
        announcements := [("C1", [{ announcementID := "A1", courseID := "C1",
                                    title := "Midterm", content := "soon" }])] } =
      ({ courses := [], courseStudents := [], courseStaff := []
         studentCourses := [("S1", [])], staffCourses := [("T1", [])]
         announcements := [] },
        none) := by
  constructor
  · rfl
  · rfl

/-- C2 counterexample: in the relational backend, adding the same
(course, student) pair twice succeeds both times but leaves two identical
association rows, so the store state after two calls differs from the state
after one. -/
theorem relational_addStudentToCourse_not_idempotent :
    Database.AddStudentToCourse "C1" "S1"
      { courses := [{ courseID := "C1", courseName := "Algorithms",
                      semester := "Fall2025", description := "" }]
        courseStudent := [], courseStaff := [], announcements := [] } =
      ({ courses := [{ courseID := "C1", courseName := "Algorithms",
                       semester := "Fall2025", description := "" }]
         courseStudent := [("C1", "S1")], courseStaff := [], announcements := [] },
        none) ∧
    Database.AddStudentToCourse "C1" "S1"
      { courses := [{ courseID := "C1", courseName := "Algorithms",
                      semester := "Fall2025", description := "" }]
        courseStudent := [("C1", "S1")], courseStaff := [], announcements := [] } =
      ({ courses := [{ courseID := "C1", courseName := "Algorithms",
                       semester := "Fall2025", description := "" }]
         courseStudent := [("C1", "S1"), ("C1", "S1")], courseStaff := [],
         announcements := [] },
        none) ∧
    [("C1", "S1"), ("C1", "S1")] ≠ [("C1", "S1")] := by
  refine ⟨rfl, rfl, ?_⟩
  decide

/-- C3 counterexample: `UpdateCourse` on a course that does not exist
receives the entity-not-found store error `ErrCourseNotFound`, yet the
service returns the `Internal` outcome, not `NotFound`. -/
theorem updateCourse_notFound_translated_to_internal :
    MockDatabase.UpdateCourse
      (some { courseID := "C1", courseName := "New", semester := "", description := "" })
      NewMockDatabase =
      (NewMockDatabase, Except.error DBError.courseNotFound) ∧
    CoursesServer.serve true
      (SReq.updateCourse
        (some { courseID := "C1", courseName := "New", semester := "", description := "" }))
      NewMockDatabase =
      (Except.error Code.internal, NewMockDatabase) ∧
    Code.internal ≠ Code.notFound := by
  refine ⟨rfl, rfl, ?_⟩
  decide

/-- C4 counterexample: in the relational backend the three list operations
on a course id that is not present return an empty list and no error, not a
"not found" error. -/
theorem relational_list_ops_on_missing_course_return_empty :
    Database.GetCourseStudents "C9"
      { courses := [], courseStudent := [], courseStaff := [], announcements := [] } =
      Except.ok [] ∧
    Database.GetCourseStaff "C9"
      { courses := [], courseStudent := [], courseStaff := [], announcements := [] } =
      Except.ok [] ∧
    Database.GetAnnouncements "C9"
      { courses := [], courseStudent := [], courseStaff := [], announcements := [] } =
      Except.ok [] := by
  exact ⟨rfl, rfl, rfl⟩

/-- C8 counterexample: `AddAnnouncement` with a non-empty course id and an
empty announcement content returns `ErrCourseIDEmpty` — the same error as an
empty course id, not a distinct empty-content error — in both backends; and
an empty announcement id is not validated at all: with the course present
and a non-empty content, the call succeeds. -/
theorem addAnnouncement_empty_content_shares_courseID_error :
    Database.AddAnnouncement
      { courseID := "C1", announcementID := "A1", title := "T", content := "" }
      { courses := [{ courseID := "C1", courseName := "Algorithms",
                      semester := "Fall2025", description := "" }]
        courseStudent := [], courseStaff := [], announcements := [] } =
      ({ courses := [{ courseID := "C1", courseName := "Algorithms",
                       semester := "Fall2025", description := "" }]
         courseStudent := [], courseStaff := [], announcements := [] },
        some DBError.courseIDEmpty) ∧
    MockDatabase.AddAnnouncement
      { courseID := "C1", announcementID := "A1", title := "T", content := "" }
      { courses := [("C1", { courseID := "C1", courseName := "Algorithms",
                             semester := "Fall2025", description := "" })]
        courseStudents := [], courseStaff := [], studentCourses := []
        staffCourses := [], announcements := [] } =
      ({ courses := [("C1", { courseID := "C1", courseName := "Algorithms",
                              semester := "Fall2025", description := "" })]
         courseStudents := [], courseStaff := [], studentCourses := []
         staffCourses := [], announcements := [] },
        some DBError.courseIDEmpty) ∧
    (MockDatabase.AddAnnouncement
      { courseID := "C1", announcementID := "", title := "T", content := "body" }
      { courses := [("C1", { courseID := "C1", courseName := "Algorithms",
                             semester := "Fall2025", description := "" })]
        courseStudents := [], courseStaff := [], studentCourses := []
        staffCourses := [], announcements := [] }).2 = none := by
  exact ⟨rfl, rfl, rfl⟩

/-- C9: every service handler checks the token first; with a failing token
verification it answers `Unauthenticated` and leaves the store untouched —
the returned state is the input state for every request. -/
theorem invalid_token_rejected_without_store_access :
    ∀ (req : SReq) (db : MockDatabase),
      CoursesServer.serve false req db = (Except.error Code.unauthenticated, db) := by
  intro req db
  rfl

/-! ### Helper lemmas about the embedded operations -/

theorem filter_ne_eq_self (l : List String) (x : String) (h : x ∉ l) :
    l.filter (fun e => ¬ e = x) = l := by
  rw [List.filter_eq_self]
  intro a ha
  simp only [decide_eq_true_eq]
  intro hEq
  exact h (hEq ▸ ha)

theorem filter_pair_eq_self (l : List (String × String)) (c s : String)
    (h : (c, s) ∉ l) :
    l.filter (fun p => ¬ (p.1 = c ∧ p.2 = s)) = l := by
  rw [List.filter_eq_self]
  intro a ha
  obtain ⟨x, y⟩ := a
  simp only [decide_eq_true_eq]
  rintro ⟨rfl, rfl⟩
  exact h ha

theorem lookupList_ensureKey (em : AssocMap (List String)) (k c : String) :
    AssocMap.lookupList
        (if (AssocMap.find? em k).isNone then AssocMap.insert em k [] else em) c =
      AssocMap.lookupList em c := by
  by_cases h : (AssocMap.find? em k).isNone
  · simp only [if_pos h]
    by_cases hck : c = k
    · subst hck
      rw [AssocMap.lookupList_insert_self]
      rw [Option.isNone_iff_eq_none] at h
      simp [AssocMap.lookupList, h]
    · rw [AssocMap.lookupList_insert_ne _ _ _ _ hck]
  · simp only [if_neg h]

theorem addEntityToCourse_ok_mem (A : AssocMap Course) (cid eid : String)
    (em cm em' cm' : AssocMap (List String)) (err : DBError)
    (h : MockDatabase.addEntityToCourse A cid eid em cm err = ((em', cm'), none)) :
    ¬ cid = "" ∧ ¬ eid = "" ∧ ¬ (AssocMap.find? A cid).isNone ∧
      eid ∈ AssocMap.lookupList em' cid := by
  by_cases hc : cid = ""
  · simp [MockDatabase.addEntityToCourse, hc] at h
  by_cases he : eid = ""
  · simp [MockDatabase.addEntityToCourse, hc, he] at h
  by_cases hA : (AssocMap.find? A cid).isNone
  · simp [MockDatabase.addEntityToCourse, hc, he, hA] at h
  refine ⟨hc, he, hA, ?_⟩
  simp only [MockDatabase.addEntityToCourse, if_neg hc, if_neg he, if_neg hA] at h
  repeat' split at h
  all_goals
    injection h with h1 h2
  all_goals
    injection h1 with h3 h4
  all_goals
    subst h3
  all_goals
    first
    | assumption
    | simp [AssocMap.lookupList_insert_self]

theorem addEntityToCourse_self (A : AssocMap Course) (cid eid : String)
    (em cm : AssocMap (List String)) (err : DBError)
    (hc : ¬ cid = "") (he : ¬ eid = "") (hA : ¬ (AssocMap.find? A cid).isNone)
    (hmem : eid ∈ AssocMap.lookupList em cid) :
    MockDatabase.addEntityToCourse A cid eid em cm err = ((em, cm), none) := by
  have hsome : ¬ (AssocMap.find? em cid).isNone = true := by
    intro hnone
    rw [Option.isNone_iff_eq_none] at hnone
    simp [AssocMap.lookupList, hnone] at hmem
  unfold MockDatabase.addEntityToCourse
  simp [hc, he, hA, hsome, hmem]

theorem addEntityToCourse_ok_again (A : AssocMap Course) (cid eid : String)
    (em cm em' cm' : AssocMap (List String)) (err : DBError)
    (h : MockDatabase.addEntityToCourse A cid eid em cm err = ((em', cm'), none)) :
    MockDatabase.addEntityToCourse A cid eid em' cm' err = ((em', cm'), none) := by
  obtain ⟨hc, he, hA, hmem⟩ := addEntityToCourse_ok_mem A cid eid em cm em' cm' err h
  exact addEntityToCourse_self A cid eid em' cm' err hc he hA hmem

theorem AddStudentToCourse_ok_again (cid sid : String) (m m1 : MockDatabase)
    (h : MockDatabase.AddStudentToCourse cid sid m = (m1, none)) :
    MockDatabase.AddStudentToCourse cid sid m1 = (m1, none) := by
  unfold MockDatabase.AddStudentToCourse at h ⊢
  have h2 : (MockDatabase.addEntityToCourse m.courses cid sid
      m.courseStudents m.studentCourses DBError.studentIDEmpty).2 = none := by
    have := congrArg (fun p => p.2) h
    simpa using this
  have hr : MockDatabase.addEntityToCourse m.courses cid sid
      m.courseStudents m.studentCourses DBError.studentIDEmpty =
      (((MockDatabase.addEntityToCourse m.courses cid sid
          m.courseStudents m.studentCourses DBError.studentIDEmpty).1.1,
        (MockDatabase.addEntityToCourse m.courses cid sid
          m.courseStudents m.studentCourses DBError.studentIDEmpty).1.2), none) := by
    rw [← h2]
  have hm1 : m1 = { m with
      courseStudents := (MockDatabase.addEntityToCourse m.courses cid sid
        m.courseStudents m.studentCourses DBError.studentIDEmpty).1.1
      studentCourses := (MockDatabase.addEntityToCourse m.courses cid sid
        m.courseStudents m.studentCourses DBError.studentIDEmpty).1.2 } := by
    have := congrArg (fun p => p.1) h
    simpa using this.symm
  subst hm1
  have hagain := addEntityToCourse_ok_again m.courses cid sid
    m.courseStudents m.studentCourses _ _ DBError.studentIDEmpty hr
  simp only [hagain]

theorem InvPair_addEntityToCourse (A : AssocMap Course) (cid eid : String)
    (em cm : AssocMap (List String)) (err : DBError) (hinv : InvPair em cm) :
    InvPair (MockDatabase.addEntityToCourse A cid eid em cm err).1.1
      (MockDatabase.addEntityToCourse A cid eid em cm err).1.2 := by
  unfold MockDatabase.addEntityToCourse
  by_cases hc : cid = ""
  · simpa [hc] using hinv
  by_cases he : eid = ""
  · simpa [hc, he] using hinv
  by_cases hA : (AssocMap.find? A cid).isNone
  · simpa [hc, he, hA] using hinv
  simp only [if_neg hc, if_neg he, if_neg hA]
  by_cases hmem : eid ∈ AssocMap.lookupList
      (if (AssocMap.find? em cid).isNone then AssocMap.insert em cid [] else em) cid
  · simp only [if_pos hmem]
    intro c e
    rw [lookupList_ensureKey]
    exact hinv c e
  · simp only [if_neg hmem]
    by_cases hcmem : cid ∈ AssocMap.lookupList
        (if (AssocMap.find? cm eid).isNone then AssocMap.insert cm eid [] else cm) eid
    · exfalso
      apply hmem
      rw [lookupList_ensureKey]
      rw [lookupList_ensureKey] at hcmem
      exact (hinv cid eid).mpr hcmem
    · simp only [if_neg hcmem]
      intro c e
      by_cases hcc : c = cid
      · subst hcc
        rw [AssocMap.lookupList_insert_self]
        by_cases hee : e = eid
        · subst hee
          rw [AssocMap.lookupList_insert_self]
          simp
        · rw [AssocMap.lookupList_insert_ne _ _ _ _ hee]
          simp only [lookupList_ensureKey]
          rw [List.mem_append]
          constructor
          · rintro (h | h)
            · exact (hinv c e).mp h
            · exact absurd (List.mem_singleton.mp h) hee
          · intro h
            exact Or.inl ((hinv c e).mpr h)
      · rw [AssocMap.lookupList_insert_ne _ _ _ _ hcc]
        by_cases hee : e = eid
        · subst hee
          rw [AssocMap.lookupList_insert_self]
          simp only [lookupList_ensureKey]
          rw [List.mem_append]
          constructor
          · intro h
            exact Or.inl ((hinv c e).mp h)
          · rintro (h | h)
            · exact (hinv c e).mpr h
            · exact absurd (List.mem_singleton.mp h) hcc
        · rw [AssocMap.lookupList_insert_ne _ _ _ _ hee]
          simp only [lookupList_ensureKey]
          exact hinv c e

theorem InvPair_removeEntityFromCourse (A : AssocMap Course) (cid eid : String)
    (em cm : AssocMap (List String)) (err : DBError) (hinv : InvPair em cm) :
    InvPair (MockDatabase.removeEntityFromCourse A cid eid em cm err).1.1
      (MockDatabase.removeEntityFromCourse A cid eid em cm err).1.2 := by
  unfold MockDatabase.removeEntityFromCourse MockDatabase.validateRemoveEntityParams
    MockDatabase.removeEntityFromMap MockDatabase.removeCourseFromEntityMap
  by_cases hc : cid = ""
  · simpa [hc] using hinv
  by_cases he : eid = ""
  · simpa [hc, he] using hinv
  by_cases hA : (AssocMap.find? A cid).isNone
  · simpa [hc, he, hA] using hinv
  simp only [if_neg hc, if_neg he, if_neg hA]
  cases hf : AssocMap.find? em cid with
  | none => simpa [hf] using hinv
  | some entities =>
      have hentities : AssocMap.lookupList em cid = entities := by
        simp [AssocMap.lookupList, hf]
      by_cases hcont : entities.contains eid
      · have hmem : eid ∈ entities := by simpa using hcont
        cases hg : AssocMap.find? cm eid with
        | none =>
            exfalso
            have : cid ∈ AssocMap.lookupList cm eid := by
              refine (hinv cid eid).mp ?_
              rw [hentities]
              exact hmem
            rw [AssocMap.lookupList, hg] at this
            simp at this
        | some courses =>
            have hcourses : AssocMap.lookupList cm eid = courses := by
              simp [AssocMap.lookupList, hg]
            simp only [hf, hg, hcont, eq_self_iff_true, not_true, if_false]
            intro c e
            by_cases hcc : c = cid
            · subst hcc
              rw [AssocMap.lookupList_insert_self]
              by_cases hee : e = eid
              · subst hee
                rw [AssocMap.lookupList_insert_self]
                simp [List.mem_filter]
              · rw [AssocMap.lookupList_insert_ne _ _ _ _ hee]
                simp only [List.mem_filter, decide_eq_true_eq]
                constructor
                · rintro ⟨h1, h2⟩
                  refine (hinv c e).mp ?_
                  rw [hentities]
                  exact h1
                · intro h1
                  have := (hinv c e).mpr h1
                  rw [hentities] at this
                  exact ⟨this, hee⟩
            · rw [AssocMap.lookupList_insert_ne _ _ _ _ hcc]
              by_cases hee : e = eid
              · subst hee
                rw [AssocMap.lookupList_insert_self]
                simp only [List.mem_filter, decide_eq_true_eq]
                constructor
                · intro h1
                  have := (hinv c e).mp h1
                  rw [hcourses] at this
                  exact ⟨this, hcc⟩
                · rintro ⟨h1, h2⟩
                  refine (hinv c e).mpr ?_
                  rw [hcourses]
                  exact h1
              · rw [AssocMap.lookupList_insert_ne _ _ _ _ hee]
                exact hinv c e
      · have hnot : eid ∉ entities := by simpa using hcont
        have hfilter : entities.filter (fun eID => ¬ eID = eid) = entities := by
          rw [List.filter_eq_self]
          intro a ha
          simp only [decide_eq_true_eq]
          intro hEq
          exact hnot (hEq ▸ ha)
        simp only [hf, hcont, Bool.false_eq_true, not_false_iff, if_true, hfilter,
          AssocMap.insert_self_of_find? _ _ _ hf]
        exact hinv

theorem InvPair_deleteCourse (cid : String) (em cm : AssocMap (List String))
    (hinv : InvPair em cm) :
    InvPair (AssocMap.eraseKey em cid)
      (AssocMap.mapVals (fun courses => courses.filter (fun cID => ¬ cID = cid)) cm) := by
  intro c e
  rw [AssocMap.lookupList_mapVals _ _ _ rfl]
  by_cases hcc : c = cid
  · subst hcc
    rw [AssocMap.lookupList_eraseKey_self]
    simp [List.mem_filter]
  · rw [AssocMap.lookupList_eraseKey_ne _ _ _ hcc]
    simp only [List.mem_filter, decide_eq_true_eq]
    constructor
    · intro h
      exact ⟨(hinv c e).mp h, hcc⟩
    · rintro ⟨h, _⟩
      exact (hinv c e).mpr h

theorem MockInv_mk (m m' : MockDatabase)
    (h1 : m'.courseStudents = m.courseStudents)
    (h2 : m'.studentCourses = m.studentCourses)
    (h3 : m'.courseStaff = m.courseStaff)
    (h4 : m'.staffCourses = m.staffCourses)
    (h : MockInv m) : MockInv m' := by
  unfold MockInv at h ⊢
  rw [h1, h2, h3, h4]
  exact h

theorem MockInv_apply (o : MockOp) (m : MockDatabase) (h : MockInv m) :
    MockInv (MockOp.apply o m) := by
  cases o with
  | addCourse c =>
      refine MockInv_mk m _ ?_ ?_ ?_ ?_ h <;>
        (unfold MockOp.apply MockDatabase.AddCourse) <;>
        (cases c with
        | none => rfl
        | some c =>
            dsimp only
            repeat' split
            all_goals rfl)
  | updateCourse c =>
      refine MockInv_mk m _ ?_ ?_ ?_ ?_ h <;>
        (unfold MockOp.apply MockDatabase.UpdateCourse) <;>
        (cases c with
        | none => rfl
        | some c =>
            dsimp only
            repeat' split
            all_goals rfl)
  | addAnnouncement req =>
      refine MockInv_mk m _ ?_ ?_ ?_ ?_ h <;>
        (unfold MockOp.apply MockDatabase.AddAnnouncement) <;>
        (dsimp only
         repeat' split
         all_goals rfl)
  | removeAnnouncement cid aid =>
      refine MockInv_mk m _ ?_ ?_ ?_ ?_ h <;>
        (unfold MockOp.apply MockDatabase.RemoveAnnouncement) <;>
        (dsimp only
         repeat' split
         all_goals rfl)
  | addStudent cid sid =>
      refine ⟨?_, ?_⟩
      · exact InvPair_addEntityToCourse m.courses cid sid
          m.courseStudents m.studentCourses DBError.studentIDEmpty h.1
      · exact h.2
  | removeStudent cid sid =>
      refine ⟨?_, ?_⟩
      · exact InvPair_removeEntityFromCourse m.courses cid sid
          m.courseStudents m.studentCourses DBError.studentIDEmpty h.1
      · exact h.2
  | addStaff cid sid =>
      refine ⟨?_, ?_⟩
      · exact h.1
      · exact InvPair_addEntityToCourse m.courses cid sid
          m.courseStaff m.staffCourses DBError.staffIDEmpty h.2
  | removeStaff cid sid =>
      refine ⟨?_, ?_⟩
      · exact h.1
      · exact InvPair_removeEntityFromCourse m.courses cid sid
          m.courseStaff m.staffCourses DBError.staffIDEmpty h.2
  | deleteCourse cid =>
      unfold MockOp.apply MockDatabase.DeleteCourse
      by_cases h1 : cid = ""
      · simpa [h1] using h
      · by_cases h2 : (AssocMap.find? m.courses cid).isNone
        · simpa [h1, h2] using h
        · simp only [if_neg h1, if_neg h2]
          exact ⟨InvPair_deleteCourse cid _ _ h.1, InvPair_deleteCourse cid _ _ h.2⟩

theorem MockInv_new : MockInv NewMockDatabase := by
  constructor <;> intro c e <;>
    simp [AssocMap.lookupList, AssocMap.find?, NewMockDatabase]

/-- C2 (amended): association add is idempotent in the in-memory backend —
after a successful `AddStudentToCourse` the same call again succeeds and
leaves the store exactly as it was — while in the relational backend both
calls succeed but each appends a row, so the second call duplicates the
association instead of being a no-op. -/
theorem addStudentToCourse_idempotent_mock_duplicated_relational
    (cid sid : String) (hc : ¬ cid = "") (hs : ¬ sid = "")
    (m m1 : MockDatabase)
    (h1 : MockDatabase.AddStudentToCourse cid sid m = (m1, none))
    (pg : PG) :
    MockDatabase.AddStudentToCourse cid sid m1 = (m1, none) ∧
    Database.AddStudentToCourse cid sid pg =
      ({ pg with courseStudent := pg.courseStudent ++ [(cid, sid)] }, none) ∧
    Database.AddStudentToCourse cid sid
        { pg with courseStudent := pg.courseStudent ++ [(cid, sid)] } =
      ({ pg with courseStudent := pg.courseStudent ++ [(cid, sid)] ++ [(cid, sid)] },
        none) := by
  refine ⟨AddStudentToCourse_ok_again cid sid m m1 h1, ?_, ?_⟩
  · simp [Database.AddStudentToCourse, hc, hs]
  · simp [Database.AddStudentToCourse, hc, hs]

/-- Witness for the C2 theorem at a concrete store. -/
theorem addStudentToCourse_idempotent_witness :
    MockDatabase.AddStudentToCourse "C1" "S1"
      { courses := [("C1", { courseID := "C1", courseName := "Algorithms",
                             semester := "Fall2025", description := "" })]
        courseStudents := [("C1", ["S1"])], courseStaff := []
        studentCourses := [("S1", ["C1"])], staffCourses := [], announcements := [] } =
      ({ courses := [("C1", { courseID := "C1", courseName := "Algorithms",
                              semester := "Fall2025", description := "" })]
         courseStudents := [("C1", ["S1"])], courseStaff := []
         studentCourses := [("S1", ["C1"])], staffCourses := [], announcements := [] },
        none) :=
  (addStudentToCourse_idempotent_mock_duplicated_relational "C1" "S1"
    (by decide) (by decide)
    { courses := [("C1", { courseID := "C1", courseName := "Algorithms",
                           semester := "Fall2025", description := "" })]
      courseStudents := [], courseStaff := []
      studentCourses := [], staffCourses := [], announcements := [] }
    { courses := [("C1", { courseID := "C1", courseName := "Algorithms",
                           semester := "Fall2025", description := "" })]
      courseStudents := [("C1", ["S1"])], courseStaff := []
      studentCourses := [("S1", ["C1"])], staffCourses := [], announcements := [] }
    (by rfl)
    { courses := [], courseStudent := [], courseStaff := [], announcements := [] }).1

/-- C3 (amended): the service layer does not discriminate store error kinds;
each handler wraps every store error into one fixed gRPC code — `NotFound`
for the read/list handlers, `Internal` for the mutating handlers (including
UpdateCourse, DeleteCourse and RemoveStudentFromCourse) — as recorded by
`CoursesServer.storeFailureCode`; with a valid token every call either
succeeds or returns that per-method code. -/
theorem service_maps_each_store_error_to_method_fixed_code
    (req : SReq) (db : MockDatabase) :
    (∃ resp : SResp, (CoursesServer.serve true req db).1 = Except.ok resp) ∨
    (CoursesServer.serve true req db).1 =
      Except.error (CoursesServer.storeFailureCode req) := by
  cases req with
  | getCourse cid =>
      cases h : MockDatabase.GetCourse cid db with
      | error e => right; simp [CoursesServer.serve, CoursesServer.storeFailureCode, h]
      | ok c => exact Or.inl ⟨SResp.course c, by simp [CoursesServer.serve, h]⟩
  | createCourse course =>
      cases h : (MockDatabase.AddCourse (some (course.getD
          { courseID := "", courseName := "", semester := "", description := "" })) db).2 with
      | error e => right; simp [CoursesServer.serve, CoursesServer.storeFailureCode, h]
      | ok c =>
          exact Or.inl ⟨SResp.course (course.getD
            { courseID := "", courseName := "", semester := "", description := "" }),
            by simp [CoursesServer.serve, h]⟩
  | updateCourse course =>
      cases h : (MockDatabase.UpdateCourse course db).2 with
      | error e => right; simp [CoursesServer.serve, CoursesServer.storeFailureCode, h]
      | ok c => exact Or.inl ⟨SResp.course c, by simp [CoursesServer.serve, h]⟩
  | deleteCourse cid =>
      cases h : (MockDatabase.DeleteCourse cid db).2 with
      | some e => right; simp [CoursesServer.serve, CoursesServer.storeFailureCode, h]
      | none => exact Or.inl ⟨SResp.empty, by simp [CoursesServer.serve, h]⟩
  | addStudentToCourse cid sid =>
      cases h : (MockDatabase.AddStudentToCourse cid sid db).2 with
      | some e => right; simp [CoursesServer.serve, CoursesServer.storeFailureCode, h]
      | none => exact Or.inl ⟨SResp.empty, by simp [CoursesServer.serve, h]⟩
  | removeStudentFromCourse cid sid =>
      cases h : (MockDatabase.RemoveStudentFromCourse cid sid db).2 with
      | some e => right; simp [CoursesServer.serve, CoursesServer.storeFailureCode, h]
      | none => exact Or.inl ⟨SResp.empty, by simp [CoursesServer.serve, h]⟩
  | addStaffToCourse cid sid =>
      cases h : (MockDatabase.AddStaffToCourse cid sid db).2 with
      | some e => right; simp [CoursesServer.serve, CoursesServer.storeFailureCode, h]
      | none => exact Or.inl ⟨SResp.empty, by simp [CoursesServer.serve, h]⟩
  | removeStaffFromCourse cid sid =>
      cases h : (MockDatabase.RemoveStaffFromCourse cid sid db).2 with
      | some e => right; simp [CoursesServer.serve, CoursesServer.storeFailureCode, h]
      | none => exact Or.inl ⟨SResp.empty, by simp [CoursesServer.serve, h]⟩
  | getCourseStudents cid =>
      cases h : MockDatabase.GetCourseStudents cid db with
      | error e => right; simp [CoursesServer.serve, CoursesServer.storeFailureCode, h]
      | ok l => exact Or.inl ⟨SResp.ids l, by simp [CoursesServer.serve, h]⟩
  | getCourseStaff cid =>
      cases h : MockDatabase.GetCourseStaff cid db with
      | error e => right; simp [CoursesServer.serve, CoursesServer.storeFailureCode, h]
      | ok l => exact Or.inl ⟨SResp.ids l, by simp [CoursesServer.serve, h]⟩
  | getStudentCourses sid =>
      cases h : MockDatabase.GetStudentCourses sid db with
      | error e => right; simp [CoursesServer.serve, CoursesServer.storeFailureCode, h]
      | ok l => exact Or.inl ⟨SResp.ids l, by simp [CoursesServer.serve, h]⟩
  | getStaffCourses sid =>
      cases h : MockDatabase.GetStaffCourses sid db with
      | error e => right; simp [CoursesServer.serve, CoursesServer.storeFailureCode, h]
      | ok l => exact Or.inl ⟨SResp.ids l, by simp [CoursesServer.serve, h]⟩
  | addAnnouncementToCourse areq =>
      cases h : (MockDatabase.AddAnnouncement areq db).2 with
      | some e => right; simp [CoursesServer.serve, CoursesServer.storeFailureCode, h]
      | none => exact Or.inl ⟨SResp.empty, by simp [CoursesServer.serve, h]⟩
  | getCourseAnnouncements cid =>
      cases h : MockDatabase.GetAnnouncements cid db with
      | error e => right; simp [CoursesServer.serve, CoursesServer.storeFailureCode, h]
      | ok l =>
          exact Or.inl ⟨SResp.announcementList
            (l.map (fun a => (a.announcementID, a.title, a.content))),
            by simp [CoursesServer.serve, h]⟩
  | removeAnnouncementFromCourse cid aid =>
      cases h : (MockDatabase.RemoveAnnouncement cid aid db).2 with
      | some e => right; simp [CoursesServer.serve, CoursesServer.storeFailureCode, h]
      | none => exact Or.inl ⟨SResp.empty, by simp [CoursesServer.serve, h]⟩

/-- C4 (amended): in the in-memory backend the list operations
(`GetCourseStudents`, `GetCourseStaff`, `GetAnnouncements`) on a missing
course id return the "not found" error, and on a present course with zero
associated entities return an empty list and no error; in the relational
backend the same operations never check course existence — with zero
matching rows (in particular for any absent course id) they return an empty
list and no error. -/
theorem list_ops_not_found_mock_empty_relational
    (cid : String) (hc : ¬ cid = "")
    (m : MockDatabase) (hmiss : AssocMap.find? m.courses cid = none)
    (m2 : MockDatabase) (hpresent : ¬ (AssocMap.find? m2.courses cid).isNone)
    (hs0 : AssocMap.lookupList m2.courseStudents cid = [])
    (ht0 : AssocMap.lookupList m2.courseStaff cid = [])
    (ha0 : AssocMap.lookupList m2.announcements cid = [])
    (pg : PG)
    (hp1 : ∀ p ∈ pg.courseStudent, ¬ p.1 = cid)
    (hp2 : ∀ p ∈ pg.courseStaff, ¬ p.1 = cid)
    (hp3 : ∀ a ∈ pg.announcements, ¬ a.courseID = cid) :
    MockDatabase.GetCourseStudents cid m = Except.error DBError.courseNotFound ∧
    MockDatabase.GetCourseStaff cid m = Except.error DBError.courseNotFound ∧
    MockDatabase.GetAnnouncements cid m = Except.error DBError.courseNotFound ∧
    MockDatabase.GetCourseStudents cid m2 = Except.ok [] ∧
    MockDatabase.GetCourseStaff cid m2 = Except.ok [] ∧
    MockDatabase.GetAnnouncements cid m2 = Except.ok [] ∧
    Database.GetCourseStudents cid pg = Except.ok [] ∧
    Database.GetCourseStaff cid pg = Except.ok [] ∧
    Database.GetAnnouncements cid pg = Except.ok [] := by
  refine ⟨?_, ?_, ?_, ?_, ?_, ?_, ?_, ?_, ?_⟩
  · simp [MockDatabase.GetCourseStudents, hc, hmiss]
  · simp [MockDatabase.GetCourseStaff, hc, hmiss]
  · simp [MockDatabase.GetAnnouncements, hc, hmiss]
  · cases hf : AssocMap.find? m2.courseStudents cid with
    | none => simp [MockDatabase.GetCourseStudents, hc, hpresent, hf]
    | some l =>
        have hl : l = [] := by
          rw [AssocMap.lookupList, hf] at hs0
          simpa using hs0
        subst hl
        simp [MockDatabase.GetCourseStudents, hc, hpresent, hf]
  · cases hf : AssocMap.find? m2.courseStaff cid with
    | none => simp [MockDatabase.GetCourseStaff, hc, hpresent, hf]
    | some l =>
        have hl : l = [] := by
          rw [AssocMap.lookupList, hf] at ht0
          simpa using ht0
        subst hl
        simp [MockDatabase.GetCourseStaff, hc, hpresent, hf]
  · cases hf : AssocMap.find? m2.announcements cid with
    | none => simp [MockDatabase.GetAnnouncements, hc, hpresent, hf]
    | some l =>
        have hl : l = [] := by
          rw [AssocMap.lookupList, hf] at ha0
          simpa using ha0
        subst hl
        simp [MockDatabase.GetAnnouncements, hc, hpresent, hf]
  · have hnil : pg.courseStudent.filter (fun p => p.1 = cid) = [] := by
      rw [List.filter_eq_nil_iff]
      intro a ha
      simpa using hp1 a ha
    simp [Database.GetCourseStudents, hc, hnil]
  · have hnil : pg.courseStaff.filter (fun p => p.1 = cid) = [] := by
      rw [List.filter_eq_nil_iff]
      intro a ha
      simpa using hp2 a ha
    simp [Database.GetCourseStaff, hc, hnil]
  · have hnil : pg.announcements.filter (fun a => a.courseID = cid) = [] := by
      rw [List.filter_eq_nil_iff]
      intro a ha
      simpa using hp3 a ha
    simp [Database.GetAnnouncements, hc, hnil]

/-- Witness for the C4 theorem at concrete stores. -/
theorem list_ops_not_found_witness :
    MockDatabase.GetCourseStudents "C1" NewMockDatabase =
      Except.error DBError.courseNotFound :=
  (list_ops_not_found_mock_empty_relational "C1" (by decide)
    NewMockDatabase (by rfl)
    { courses := [("C1", { courseID := "C1", courseName := "Algorithms",
                           semester := "Fall2025", description := "" })]
      courseStudents := [], courseStaff := []
      studentCourses := [], staffCourses := [], announcements := [] }
    (by simp [AssocMap.find?])
    (by rfl) (by rfl) (by rfl)
    { courses := [], courseStudent := [], courseStaff := [], announcements := [] }
    (by simp) (by simp) (by simp)).1

/-- C5: `UpdateCourse` has partial-update semantics in both backends: with a
course message carrying id `cid` and fields `n`/`s`/`d`, every empty incoming
field keeps the stored value and every non-empty one overwrites it; the
course id and every other part of the store are untouched.  In particular,
with only the name non-empty, only the name changes. -/
theorem updateCourse_partial_update_frame
    (cid n s d : String) (hc : ¬ cid = "")
    (m : MockDatabase) (c : Course) (hfind : AssocMap.find? m.courses cid = some c)
    (pg : PG) (c2 : Course)
    (hfind2 : pg.courses.find? (fun r => r.courseID = cid) = some c2) :
    MockDatabase.UpdateCourse
        (some { courseID := cid, courseName := n, semester := s, description := d }) m =
      ({ m with
          courses := AssocMap.insert m.courses cid
            { c with
                courseName := if n = "" then c.courseName else n
                semester := if s = "" then c.semester else s
                description := if d = "" then c.description else d } },
        Except.ok
          { c with
              courseName := if n = "" then c.courseName else n
              semester := if s = "" then c.semester else s
              description := if d = "" then c.description else d }) ∧
    Database.UpdateCourse
        (some { courseID := cid, courseName := n, semester := s, description := d }) pg =
      ({ pg with
          courses := pg.courses.map fun r =>
            if r.courseID = c2.courseID then
              { c2 with
                  courseName := if n = "" then c2.courseName else n
                  semester := if s = "" then c2.semester else s
                  description := if d = "" then c2.description else d }
            else r },
        Except.ok
          { c2 with
              courseName := if n = "" then c2.courseName else n
              semester := if s = "" then c2.semester else s
              description := if d = "" then c2.description else d }) := by
  constructor
  · simp [MockDatabase.UpdateCourse, hc, hfind]
  · simp [Database.UpdateCourse, Database.GetCourse, Database.updateField, hc, hfind2]

/-- Witness for the C5 theorem: updating only the name of a stored course. -/
theorem updateCourse_partial_update_witness :
    MockDatabase.UpdateCourse
        (some { courseID := "C1", courseName := "NewName", semester := "", description := "" })
        { courses := [("C1", { courseID := "C1", courseName := "Algorithms",
                               semester := "Fall2025", description := "Old" })]
          courseStudents := [], courseStaff := []
          studentCourses := [], staffCourses := [], announcements := [] } =
      ({ courses := [("C1", { courseID := "C1", courseName := "NewName",
                              semester := "Fall2025", description := "Old" })]
         courseStudents := [], courseStaff := []
         studentCourses := [], staffCourses := [], announcements := [] },
        Except.ok { courseID := "C1", courseName := "NewName",
                    semester := "Fall2025", description := "Old" }) := by
  have h := (updateCourse_partial_update_frame "C1" "NewName" "" "" (by decide)
    { courses := [("C1", { courseID := "C1", courseName := "Algorithms",
                           semester := "Fall2025", description := "Old" })]
      courseStudents := [], courseStaff := []
      studentCourses := [], staffCourses := [], announcements := [] }
    { courseID := "C1", courseName := "Algorithms",
      semester := "Fall2025", description := "Old" }
    (by rfl)
    { courses := [{ courseID := "C1", courseName := "Algorithms",
                    semester := "Fall2025", description := "Old" }]
      courseStudent := [], courseStaff := [], announcements := [] }
    { courseID := "C1", courseName := "Algorithms",
      semester := "Fall2025", description := "Old" }
    (by rfl)).1
  simpa using h

/-- C6: creating a course whose id already exists fails in both backends —
`ErrCourseAlreadyExists` from the in-memory duplicate check, a unique-key
violation from the relational `courses.course_id` primary key — and in both
cases the store is returned unchanged. -/
theorem addCourse_duplicate_fails_unchanged
    (cid n s d : String) (hc : ¬ cid = "")
    (m : MockDatabase) (hdup : (AssocMap.find? m.courses cid).isSome)
    (pg : PG) (hdup2 : pg.courses.any (fun r => r.courseID = cid) = true) :
    MockDatabase.AddCourse
        (some { courseID := cid, courseName := n, semester := s, description := d }) m =
      (m, Except.error DBError.courseAlreadyExists) ∧
    Database.AddCourse
        (some { courseID := cid, courseName := n, semester := s, description := d }) pg =
      (pg, Except.error DBError.uniqueViolation) := by
  constructor
  · simp [MockDatabase.AddCourse, hc, hdup]
  · simp [Database.AddCourse, hc, hdup2]

/-- Witness for the C6 theorem at a concrete store. -/
theorem addCourse_duplicate_witness :
    MockDatabase.AddCourse
        (some { courseID := "C1", courseName := "Other", semester := "Spring",
                description := "" })
        { courses := [("C1", { courseID := "C1", courseName := "Algorithms",
                               semester := "Fall2025", description := "" })]
          courseStudents := [], courseStaff := []
          studentCourses := [], staffCourses := [], announcements := [] } =
      ({ courses := [("C1", { courseID := "C1", courseName := "Algorithms",
                              semester := "Fall2025", description := "" })]
         courseStudents := [], courseStaff := []
         studentCourses := [], staffCourses := [], announcements := [] },
        Except.error DBError.courseAlreadyExists) :=
  (addCourse_duplicate_fails_unchanged "C1" "Other" "Spring" "" (by decide)
    { courses := [("C1", { courseID := "C1", courseName := "Algorithms",
                           semester := "Fall2025", description := "" })]
      courseStudents := [], courseStaff := []
      studentCourses := [], staffCourses := [], announcements := [] }
    (by rfl)
    { courses := [{ courseID := "C1", courseName := "Algorithms",
                    semester := "Fall2025", description := "" }]
      courseStudent := [], courseStaff := [], announcements := [] }
    (by rfl)).1

/-- C7: removing an association that is not present (both ids non-empty)
returns the "not found" error and leaves the store unchanged in both
backends; in the relational backend the embedded delete detects this as zero
affected rows, in the in-memory backend the rebuilt lists are value-equal to
the originals. -/
theorem remove_absent_association_not_found
    (cid sid tid : String) (hc : ¬ cid = "") (hs : ¬ sid = "") (ht : ¬ tid = "")
    (m : MockDatabase)
    (hms : sid ∉ AssocMap.lookupList m.courseStudents cid)
    (hmt : tid ∉ AssocMap.lookupList m.courseStaff cid)
    (pg : PG)
    (hps : (cid, sid) ∉ pg.courseStudent)
    (hpt : (cid, tid) ∉ pg.courseStaff) :
    MockDatabase.RemoveStudentFromCourse cid sid m = (m, some DBError.courseNotFound) ∧
    MockDatabase.RemoveStaffFromCourse cid tid m = (m, some DBError.courseNotFound) ∧
    Database.RemoveStudentFromCourse cid sid pg = (pg, some DBError.courseNotFound) ∧
    Database.RemoveStaffFromCourse cid tid pg = (pg, some DBError.courseNotFound) := by
  refine ⟨?_, ?_, ?_, ?_⟩
  · by_cases hcourse : (AssocMap.find? m.courses cid).isNone
    · simp [MockDatabase.RemoveStudentFromCourse, MockDatabase.removeEntityFromCourse,
        MockDatabase.validateRemoveEntityParams, hc, hs, hcourse]
    · cases hf : AssocMap.find? m.courseStudents cid with
      | none =>
          simp [MockDatabase.RemoveStudentFromCourse, MockDatabase.removeEntityFromCourse,
            MockDatabase.validateRemoveEntityParams, MockDatabase.removeEntityFromMap,
            hc, hs, hcourse, hf]
      | some entities =>
          have hnotin : sid ∉ entities := by
            rw [AssocMap.lookupList, hf] at hms
            simpa using hms
          have hcontains : entities.contains sid = false := by
            simpa using hnotin
          simp only [MockDatabase.RemoveStudentFromCourse,
            MockDatabase.removeEntityFromCourse,
            MockDatabase.validateRemoveEntityParams, MockDatabase.removeEntityFromMap,
            if_neg hc, if_neg hs, if_neg hcourse, hf, hcontains]
          rw [filter_ne_eq_self entities sid hnotin,
            AssocMap.insert_self_of_find? _ _ _ hf]
          simp
  · by_cases hcourse : (AssocMap.find? m.courses cid).isNone
    · simp [MockDatabase.RemoveStaffFromCourse, MockDatabase.removeEntityFromCourse,
        MockDatabase.validateRemoveEntityParams, hc, ht, hcourse]
    · cases hf : AssocMap.find? m.courseStaff cid with
      | none =>
          simp [MockDatabase.RemoveStaffFromCourse, MockDatabase.removeEntityFromCourse,
            MockDatabase.validateRemoveEntityParams, MockDatabase.removeEntityFromMap,
            hc, ht, hcourse, hf]
      | some entities =>
          have hnotin : tid ∉ entities := by
            rw [AssocMap.lookupList, hf] at hmt
            simpa using hmt
          have hcontains : entities.contains tid = false := by
            simpa using hnotin
          simp only [MockDatabase.RemoveStaffFromCourse,
            MockDatabase.removeEntityFromCourse,
            MockDatabase.validateRemoveEntityParams, MockDatabase.removeEntityFromMap,
            if_neg hc, if_neg ht, if_neg hcourse, hf, hcontains]
          rw [filter_ne_eq_self entities tid hnotin,
            AssocMap.insert_self_of_find? _ _ _ hf]
          simp
  · simp only [Database.RemoveStudentFromCourse, if_neg hc, if_neg hs]
    rw [filter_pair_eq_self pg.courseStudent cid sid hps]
    simp
  · simp only [Database.RemoveStaffFromCourse, if_neg hc, if_neg ht]
    rw [filter_pair_eq_self pg.courseStaff cid tid hpt]
    simp

/-- Witness for the C7 theorem at a concrete store. -/
theorem remove_absent_association_witness :
    MockDatabase.RemoveStudentFromCourse "C1" "S2"
      { courses := [("C1", { courseID := "C1", courseName := "Algorithms",
                             semester := "Fall2025", description := "" })]
        courseStudents := [("C1", ["S1"])], courseStaff := [("C1", ["T1"])]
        studentCourses := [("S1", ["C1"])], staffCourses := [("T1", ["C1"])]
        announcements := [] } =
      ({ courses := [("C1", { courseID := "C1", courseName := "Algorithms",
                              semester := "Fall2025", description := "" })]
         courseStudents := [("C1", ["S1"])], courseStaff := [("C1", ["T1"])]
         studentCourses := [("S1", ["C1"])], staffCourses := [("T1", ["C1"])]
         announcements := [] },
        some DBError.courseNotFound) :=
  (remove_absent_association_not_found "C1" "S2" "T2"
    (by decide) (by decide) (by decide)
    { courses := [("C1", { courseID := "C1", courseName := "Algorithms",
                           semester := "Fall2025", description := "" })]
      courseStudents := [("C1", ["S1"])], courseStaff := [("C1", ["T1"])]
      studentCourses := [("S1", ["C1"])], staffCourses := [("T1", ["C1"])]
      announcements := [] }
    (by decide) (by decide)
    { courses := [{ courseID := "C1", courseName := "Algorithms",
                    semester := "Fall2025", description := "" }]
      courseStudent := [("C1", "S1")], courseStaff := [("C1", "T1")]
      announcements := [] }
    (by decide) (by decide)).1

/-- C8 (amended): every store operation validates its required string inputs
before touching storage, with a per-field sentinel error (`ErrCourseIDEmpty`,
`ErrStudentIDEmpty`, `ErrStaffIDEmpty`, `ErrSemesterEmpty`, and
`ErrAnnouncementEmpty` for `RemoveAnnouncement`'s announcement id), in both
backends — except `AddAnnouncement`, which checks only the course id and the
announcement content, returns the same `ErrCourseIDEmpty` for an empty
content as for an empty course id, and accepts an empty announcement id. -/
theorem empty_field_validation_fails_fast
    (pg : PG) (m : MockDatabase)
    (cid sid tid aid n s d ttl cont : String)
    (hc : ¬ cid = "") (hco : ¬ cont = "")
    (hpresent : ¬ (AssocMap.find? m.courses cid).isNone) :
    Database.AddCourse none pg = (pg, Except.error DBError.courseNil) ∧
    Database.AddCourse
        (some { courseID := "", courseName := n, semester := s, description := d }) pg =
      (pg, Except.error DBError.courseIDEmpty) ∧
    Database.GetCourse "" pg = Except.error DBError.courseIDEmpty ∧
    Database.UpdateCourse none pg = (pg, Except.error DBError.courseNil) ∧
    Database.UpdateCourse
        (some { courseID := "", courseName := n, semester := s, description := d }) pg =
      (pg, Except.error DBError.courseIDEmpty) ∧
    Database.DeleteCourse "" pg = (pg, some DBError.courseIDEmpty) ∧
    Database.AddStudentToCourse "" sid pg = (pg, some DBError.courseIDEmpty) ∧
    Database.AddStudentToCourse cid "" pg = (pg, some DBError.studentIDEmpty) ∧
    Database.RemoveStudentFromCourse "" sid pg = (pg, some DBError.courseIDEmpty) ∧
    Database.RemoveStudentFromCourse cid "" pg = (pg, some DBError.studentIDEmpty) ∧
    Database.AddStaffToCourse "" tid pg = (pg, some DBError.courseIDEmpty) ∧
    Database.AddStaffToCourse cid "" pg = (pg, some DBError.staffIDEmpty) ∧
    Database.RemoveStaffFromCourse "" tid pg = (pg, some DBError.courseIDEmpty) ∧
    Database.RemoveStaffFromCourse cid "" pg = (pg, some DBError.staffIDEmpty) ∧
    Database.GetCourseStudents "" pg = Except.error DBError.courseIDEmpty ∧
    Database.GetCourseStaff "" pg = Except.error DBError.courseIDEmpty ∧
    Database.GetStudentCourses "" pg = Except.error DBError.studentIDEmpty ∧
    Database.GetStaffCourses "" pg = Except.error DBError.staffIDEmpty ∧
    Database.GetCoursesBySemester "" pg = Except.error DBError.semesterEmpty ∧
    Database.GetAnnouncements "" pg = Except.error DBError.courseIDEmpty ∧
    Database.AddAnnouncement
        { courseID := "", announcementID := aid, title := ttl, content := cont } pg =
      (pg, some DBError.courseIDEmpty) ∧
    Database.AddAnnouncement
        { courseID := cid, announcementID := aid, title := ttl, content := "" } pg =
      (pg, some DBError.courseIDEmpty) ∧
    (Database.AddAnnouncement
        { courseID := cid, announcementID := "", title := ttl, content := cont } pg).2 =
      none ∧
    Database.RemoveAnnouncement "" aid pg = (pg, some DBError.courseIDEmpty) ∧
    Database.RemoveAnnouncement cid "" pg = (pg, some DBError.announcementEmpty) ∧
    MockDatabase.AddCourse none m = (m, Except.error DBError.courseNil) ∧
    MockDatabase.AddCourse
        (some { courseID := "", courseName := n, semester := s, description := d }) m =
      (m, Except.error DBError.courseIDEmpty) ∧
    MockDatabase.GetCourse "" m = Except.error DBError.courseIDEmpty ∧
    MockDatabase.UpdateCourse none m = (m, Except.error DBError.courseNil) ∧
    MockDatabase.UpdateCourse
        (some { courseID := "", courseName := n, semester := s, description := d }) m =
      (m, Except.error DBError.courseIDEmpty) ∧
    MockDatabase.DeleteCourse "" m = (m, some DBError.courseIDEmpty) ∧
    MockDatabase.AddStudentToCourse "" sid m = (m, some DBError.courseIDEmpty) ∧
    MockDatabase.AddStudentToCourse cid "" m = (m, some DBError.studentIDEmpty) ∧
    MockDatabase.RemoveStudentFromCourse "" sid m = (m, some DBError.courseIDEmpty) ∧
    MockDatabase.RemoveStudentFromCourse cid "" m = (m, some DBError.studentIDEmpty) ∧
    MockDatabase.AddStaffToCourse "" tid m = (m, some DBError.courseIDEmpty) ∧
    MockDatabase.AddStaffToCourse cid "" m = (m, some DBError.staffIDEmpty) ∧
    MockDatabase.RemoveStaffFromCourse "" tid m = (m, some DBError.courseIDEmpty) ∧
    MockDatabase.RemoveStaffFromCourse cid "" m = (m, some DBError.staffIDEmpty) ∧
    MockDatabase.GetCourseStudents "" m = Except.error DBError.courseIDEmpty ∧
    MockDatabase.GetCourseStaff "" m = Except.error DBError.courseIDEmpty ∧
    MockDatabase.GetStudentCourses "" m = Except.error DBError.studentIDEmpty ∧
    MockDatabase.GetStaffCourses "" m = Except.error DBError.staffIDEmpty ∧
    MockDatabase.GetAnnouncements "" m = Except.error DBError.courseIDEmpty ∧
    MockDatabase.AddAnnouncement
        { courseID := "", announcementID := aid, title := ttl, content := cont } m =
      (m, some DBError.courseIDEmpty) ∧
    MockDatabase.AddAnnouncement
        { courseID := cid, announcementID := aid, title := ttl, content := "" } m =
      (m, some DBError.courseIDEmpty) ∧
    (MockDatabase.AddAnnouncement
        { courseID := cid, announcementID := "", title := ttl, content := cont } m).2 =
      none ∧
    MockDatabase.RemoveAnnouncement "" aid m = (m, some DBError.courseIDEmpty) ∧
    MockDatabase.RemoveAnnouncement cid "" m = (m, some DBError.announcementEmpty) := by
  refine ⟨?_, ?_, ?_, ?_, ?_, ?_, ?_, ?_, ?_, ?_, ?_, ?_, ?_, ?_, ?_, ?_, ?_, ?_, ?_,
    ?_, ?_, ?_, ?_, ?_, ?_, ?_, ?_, ?_, ?_, ?_, ?_, ?_, ?_, ?_, ?_, ?_, ?_, ?_, ?_,
    ?_, ?_, ?_, ?_, ?_, ?_, ?_, ?_, ?_, ?_⟩
  all_goals
    first
    | rfl
    | simp [Database.AddCourse, Database.GetCourse, Database.UpdateCourse,
        Database.DeleteCourse, Database.AddStudentToCourse,
        Database.RemoveStudentFromCourse, Database.AddStaffToCourse,
        Database.RemoveStaffFromCourse, Database.GetCourseStudents,
        Database.GetCourseStaff, Database.GetStudentCourses, Database.GetStaffCourses,
        Database.GetCoursesBySemester, Database.AddAnnouncement,
        Database.GetAnnouncements, Database.RemoveAnnouncement,
        MockDatabase.AddCourse, MockDatabase.GetCourse, MockDatabase.UpdateCourse,
        MockDatabase.DeleteCourse, MockDatabase.AddStudentToCourse,
        MockDatabase.RemoveStudentFromCourse, MockDatabase.AddStaffToCourse,
        MockDatabase.RemoveStaffFromCourse, MockDatabase.addEntityToCourse,
        MockDatabase.removeEntityFromCourse, MockDatabase.validateRemoveEntityParams,
        MockDatabase.GetCourseStudents, MockDatabase.GetCourseStaff,
        MockDatabase.GetStudentCourses, MockDatabase.GetStaffCourses,
        MockDatabase.GetAnnouncements, MockDatabase.AddAnnouncement,
        MockDatabase.RemoveAnnouncement, hc, hco, hpresent]

/-- Witness for the C8 theorem at concrete stores. -/
theorem empty_field_validation_witness :
    Database.AddStudentToCourse "C1" ""
      { courses := [], courseStudent := [], courseStaff := [], announcements := [] } =
      ({ courses := [], courseStudent := [], courseStaff := [], announcements := [] },
        some DBError.studentIDEmpty) :=
  (empty_field_validation_fails_fast
    { courses := [], courseStudent := [], courseStaff := [], announcements := [] }
    { courses := [("C1", { courseID := "C1", courseName := "Algorithms",
                           semester := "Fall2025", description := "" })]
      courseStudents := [], courseStaff := []
      studentCourses := [], staffCourses := [], announcements := [] }
    "C1" "S1" "T1" "A1" "N" "S" "D" "Title" "Body"
    (by decide) (by decide) (by simp [AssocMap.find?])
    ).2.2.2.2.2.2.2.1

/-- C10: in every in-memory store state reachable from `NewMockDatabase` by
any sequence of operations, the student and staff adjacency maps are mutual
inverses: an entity appears in a course's list exactly when the course
appears in that entity's list (`MockInv`); every operation, including
`DeleteCourse`, preserves this. -/
theorem mock_adjacency_maps_mutual_inverse
    (m : MockDatabase) (h : MockReachable m) : MockInv m := by
  obtain ⟨ops, rfl⟩ := h
  have H : ∀ (l : List MockOp) (s : MockDatabase), MockInv s →
      MockInv (List.foldl (fun s o => MockOp.apply o s) s l) := by
    intro l
    induction l with
    | nil => intro s hs; simpa using hs
    | cons o t ih =>
        intro s hs
        simpa using ih (MockOp.apply o s) (MockInv_apply o s hs)
  exact H ops NewMockDatabase MockInv_new

/-- Witness for the C10 theorem on a concrete reachable state. -/
theorem mock_adjacency_witness :
    MockInv (List.foldl (fun s o => MockOp.apply o s) NewMockDatabase
      [MockOp.addCourse (some { courseID := "C1", courseName := "Algorithms",
                                semester := "Fall2025", description := "" }),
       MockOp.addCourse (some { courseID := "C2", courseName := "Calculus",
                                semester := "Fall2025", description := "" }),
       MockOp.addStudent "C1" "S1", MockOp.addStudent "C2" "S1",
       MockOp.addStaff "C1" "T1", MockOp.removeStudent "C1" "S1",
       MockOp.deleteCourse "C2"]) := by
  apply mock_adjacency_maps_mutual_inverse
  unfold MockReachable
  exact ⟨_, rfl⟩
